import Mathlib

/-!
Shallow embedding of the FastAd generation pipeline: the prompt optimizer and
generation dispatcher (class `AIService` in the OpenAI service module) and the
submit flow of the generator page (`onSubmit`), together with the quota guard
and the persistence effects that flow performs.  External collaborators (the
image provider, the record store) enter as explicit arguments; client-side
state (`user`, `subscription`, the optimized-prompt state variable) enters as
arguments as well, and the flow's observable behaviour is its ordered list of
external effects.
-/

namespace FastAd

/-- Visual style selector (`GenerationOptions.style`). -/
inductive Style
  | realistic
  | surreal
  | anime
  | futuristic
deriving DecidableEq, Repr

/-- Target platform selector (`GenerationOptions.platform`). -/
inductive Platform
  | facebook
  | instagram
  | youtube
  | google_ads
  | twitter
  | linkedin
deriving DecidableEq, Repr

/-- Requested content type (`GenerationOptions.type`). -/
inductive ContentType
  | image
  | video
  | banner
  | social
deriving DecidableEq, Repr

/-- JavaScript `a || b` where `a` is a string: the empty string is falsy. -/
def jsOrStr (a b : String) : String := if a = "" then b else a

/-- JavaScript `a || b` where `a` is an optional string: `undefined` and the
empty string are falsy. -/
def jsOrOptStr : Option String → String → String
  | some s, b => if s = "" then b else s
  | none, b => b

/-- JavaScript truthiness of an optional string: `undefined` and the empty
string are falsy. -/
def jsTruthy : Option String → Bool
  | some s => s != ""
  | none => false

/-- JavaScript `a || b` where `a` is an optional number: `undefined` and `0`
are falsy. -/
def jsOrNat : Option Nat → Nat → Nat
  | some n, b => if n = 0 then b else n
  | none, b => b

/-- The subscription row fields the generator flow reads (`QuotaState`). -/
structure Subscription where
  current_usage : Nat
  usage_limit : Nat
deriving DecidableEq, Repr

/-- The authenticated user as the flow sees it. -/
structure User where
  id : String
deriving DecidableEq, Repr

/-- The generation form values submitted by the user (`GenerationForm`). -/
structure GenerationForm where
  prompt : String
  type : ContentType
  platform : Platform
  style : Style
deriving DecidableEq, Repr

/-- `GenerationOptions` passed to the AI service (the optional `dimensions`
and `brandKit` fields are unused by every modelled function and omitted). -/
structure GenerationOptions where
  prompt : String
  style : Style
  platform : Platform
  type : ContentType
deriving DecidableEq, Repr

/-- `GenerationResult`: the uniform result shape of both dispatch paths. -/
structure GenerationResult where
  success : Bool
  url : Option String := none
  error : Option String := none
  id : Option String := none
deriving DecidableEq, Repr

/-- One artifact in the image provider's response (`response.data[i]`);
either field may be absent. -/
structure ImageDatum where
  url : Option String := none
  revised_prompt : Option String := none
deriving DecidableEq, Repr

/-- The image provider's successful response body. -/
structure ImagesResponse where
  data : List ImageDatum
deriving DecidableEq, Repr

/-- A JavaScript error value caught by a `catch (error: any)` handler; its
`message` may be absent or empty. -/
structure JsError where
  message : Option String := none
deriving DecidableEq, Repr

/-- The four style descriptor phrases (`stylePrompts` object literal). -/
def stylePrompts : Style → String
  | .realistic => "photorealistic, high detail, professional photography"
  | .surreal => "surreal, dreamlike, imaginative, artistic"
  | .anime => "anime style, Japanese animation, vibrant colors"
  | .futuristic => "futuristic, sci-fi, cyberpunk, advanced technology"

/-- The six platform descriptor phrases (`platformPrompts` object literal). -/
def platformPrompts : Platform → String
  | .facebook => "Facebook post optimized, engaging, social media friendly"
  | .instagram => "Instagram style, square format, visually appealing"
  | .youtube => "YouTube thumbnail, eye-catching, high contrast"
  | .google_ads => "Google Ads banner, professional, conversion optimized"
  | .twitter => "Twitter card, horizontal format, attention grabbing"
  | .linkedin => "LinkedIn professional, business oriented, clean design"

/-- `AIService.optimizePrompt`: the rule-based template-literal concatenation.
It performs no input validation and cannot fail. -/
def optimizePrompt (prompt : String) (options : GenerationOptions) : String :=
  prompt ++ ". Style: " ++ stylePrompts options.style ++ ". Platform: " ++
    platformPrompts options.platform ++
    ". Professional marketing content, high quality, brand appropriate."

/-- `AIService.generateImage`.  `provider` is the image-generation
collaborator: applied to the prompt actually sent, it yields either a
response object or a thrown error; `now` stands for `Date.now()`.  The
function never throws: the provider error and the internal throw on a
missing URL are both caught and returned as data. -/
def generateImage (options : GenerationOptions)
    (provider : String → Except JsError ImagesResponse) (now : Nat) : GenerationResult :=
  let optimizedPrompt := optimizePrompt options.prompt options
  match provider optimizedPrompt with
  | .error e =>
    { success := false, error := some (jsOrOptStr e.message "Failed to generate image") }
  | .ok resp =>
    let imageUrl := (resp.data.head?).bind ImageDatum.url
    if jsTruthy imageUrl then
      { success := true
        url := imageUrl
        id := some (jsOrOptStr ((resp.data.head?).bind ImageDatum.revised_prompt) (toString now)) }
    else
      { success := false, error := some "No image URL returned from OpenAI" }

/-- `AIService.generateVideo`: a stub that always resolves with a placeholder
URL after a simulated delay.  Nothing in its `try` block can throw, so the
`catch` branch returning success=false is dead code and has no counterpart
here.  The `options` argument is unused by the source body as well; `now`
stands for `Date.now()`. -/
def generateVideo (_options : GenerationOptions) (now : Nat) : GenerationResult :=
  { success := true
    url := some ("https://example.com/video-placeholder-" ++ toString now ++ ".mp4")
    id := some ("video-" ++ toString now) }

/-- The usage update issued by `onSubmit`: it writes
`(subscription?.current_usage || 0) + 1` as the new stored `current_usage`.
`snapshot` is the client-side subscription state captured by the component;
`stored` is the value currently persisted.  The written value is computed
from the snapshot alone — the stored value is not read. -/
def recordUsage (snapshot : Option Subscription) (stored : Nat) : Nat :=
  let _ := stored
  jsOrNat (snapshot.map Subscription.current_usage) 0 + 1

/-- The alert text `onSubmit` shows when the quota guard refuses dispatch. -/
def quotaMsg : String :=
  "You have reached your generation limit for this month. Please upgrade your plan."

/-- The string a `ContentType` value interpolates to in a template literal. -/
def ContentType.str : ContentType → String
  | .image => "image"
  | .video => "video"
  | .banner => "banner"
  | .social => "social"

/-- One observable external effect of the `onSubmit` flow, in program order:
the dispatch call to the AI service, the content-item insert, the
subscription usage update, and a user-facing alert. -/
inductive Effect
  | generateCall (t : ContentType)
  | insertContentItem (userId title description prompt : String)
      (t : ContentType) (p : Platform) (s : Style) (url createdAt : String)
  | updateUsage (userId : String) (newUsage : Nat)
  | alert (msg : String)
deriving DecidableEq, Repr

/-- The guard `subscription && subscription.current_usage >= subscription.usage_limit`. -/
def quotaExceeded : Option Subscription → Bool
  | some q => decide (q.usage_limit ≤ q.current_usage)
  | none => false

/-- The dispatch step of `onSubmit`: `generateVideo` when the requested type
is `video`, `generateImage` otherwise, both on the options record built from
the form and the optimized-prompt state (`optimizedPrompt || data.prompt`). -/
def dispatchResult (data : GenerationForm) (optimizedPrompt : String)
    (provider : String → Except JsError ImagesResponse) (now : Nat) : GenerationResult :=
  let options : GenerationOptions :=
    { prompt := jsOrStr optimizedPrompt data.prompt
      style := data.style
      platform := data.platform
      type := data.type }
  if data.type = .video then generateVideo options now
  else generateImage options provider now

/-- The `onSubmit` flow of the generator page as its ordered list of external
effects.  `user` and `subscription` are the auth-context state,
`optimizedPrompt` the optimized-prompt state variable (possibly empty),
`provider` the image provider, `now` the `Date.now()` value and `nowIso` the
`new Date().toISOString()` value.  With no user the handler returns at once;
with the quota guard tripped it alerts and returns; otherwise it dispatches,
and on a truthy `result.success && result.url` inserts the content item and
then updates the usage row, else alerts with the result's error. -/
def onSubmit (user : Option User) (subscription : Option Subscription)
    (data : GenerationForm) (optimizedPrompt : String)
    (provider : String → Except JsError ImagesResponse) (now : Nat) (nowIso : String) :
    List Effect :=
  match user with
  | none => []
  | some u =>
    if quotaExceeded subscription then
      [.alert quotaMsg]
    else
      let result := dispatchResult data optimizedPrompt provider now
      if result.success && jsTruthy result.url then
        [ .generateCall data.type,
          .insertContentItem u.id ("Generated " ++ data.type.str) data.prompt
            (jsOrStr optimizedPrompt data.prompt) data.type data.platform data.style
            (result.url.getD "") nowIso,
          .updateUsage u.id (jsOrNat (subscription.map Subscription.current_usage) 0 + 1) ]
      else
        [.generateCall data.type, .alert (jsOrOptStr result.error "Generation failed")]

/-- Recognizes the content-record insert effect. -/
def Effect.isInsert : Effect → Bool
  | .insertContentItem .. => true
  | _ => false

/-- Recognizes the usage-update effect. -/
def Effect.isUpdateUsage : Effect → Bool
  | .updateUsage .. => true
  | _ => false

/-- Recognizes a dispatch (generation) call effect. -/
def Effect.isGenerateCall : Effect → Bool
  | .generateCall _ => true
  | _ => false

/-- Some effect satisfying `p` occurs strictly before some effect satisfying
`q` in the trace. -/
def precedesB (p q : Effect → Bool) : List Effect → Bool
  | [] => false
  | e :: es => (p e && es.any q) || precedesB p q es

/-- The spec's contract for `optimize`, stated from the spec's words for
comparison with the code's `optimizePrompt`: an empty `rawPrompt` is an
InvalidArgument rejected before any external call (style and platform
membership is enforced by the enumerated types of this embedding).  The
code's `optimizePrompt` performs no such check. -/
def optimizeSpecContract (rawPrompt : String) (options : GenerationOptions) :
    Except String String :=
  if rawPrompt = "" then .error "InvalidArgument"
  else .ok (optimizePrompt rawPrompt options)

/-- A string append is non-empty when its left part is. -/
theorem append_ne_empty_left (a b : String) (h : a ≠ "") : a ++ b ≠ "" := by
  intro hab
  apply h
  have hd : (a ++ b).data = ("" : String).data := congrArg String.data hab
  rw [String.data_append] at hd
  have ha : a.data = [] := (List.append_eq_nil.mp hd).1
  cases a
  simp_all

/-- C8: for every raw prompt, style and platform, the rule-based optimizer is
pure and deterministic (a function of its arguments, equal on equal inputs),
and its output contains the style's descriptor phrase, contains the
platform's descriptor phrase, and ends with the fixed marketing suffix. -/
theorem optimizePrompt_deterministic_contains_and_suffixed
    (prompt : String) (options : GenerationOptions) :
    optimizePrompt prompt options = optimizePrompt prompt options ∧
    (∃ a b, optimizePrompt prompt options = a ++ stylePrompts options.style ++ b) ∧
    (∃ a b, optimizePrompt prompt options = a ++ platformPrompts options.platform ++ b) ∧
    (∃ a, optimizePrompt prompt options =
      a ++ "Professional marketing content, high quality, brand appropriate.") := by
  refine ⟨rfl, ?_, ?_, ?_⟩
  · refine ⟨prompt ++ ". Style: ",
      ". Platform: " ++ platformPrompts options.platform ++
        ". Professional marketing content, high quality, brand appropriate.", ?_⟩
    simp [optimizePrompt, String.append_assoc]
  · refine ⟨prompt ++ ". Style: " ++ stylePrompts options.style ++ ". Platform: ",
      ". Professional marketing content, high quality, brand appropriate.", ?_⟩
    simp [optimizePrompt, String.append_assoc]
  · refine ⟨prompt ++ ". Style: " ++ stylePrompts options.style ++ ". Platform: " ++
      platformPrompts options.platform ++ ". ", ?_⟩
    have hc : (". Professional marketing content, high quality, brand appropriate." : String) =
        ". " ++ "Professional marketing content, high quality, brand appropriate." := rfl
    simp [optimizePrompt, hc, String.append_assoc]

/-- C5 counterexample: called with an empty `rawPrompt`, the code's
`optimizePrompt` does not fail at all — it returns the ordinary concatenated
prompt string — whereas the spec's contract (`optimizeSpecContract`, stated
from the spec's words) rejects the same input with InvalidArgument.  So the
claim that the operation fails with InvalidArgument on an empty raw prompt is
false of the code at this input. -/
theorem optimizePrompt_empty_prompt_counterexample :
    optimizePrompt "" ⟨"", .realistic, .instagram, .image⟩ =
      ". Style: photorealistic, high detail, professional photography. Platform: Instagram style, square format, visually appealing. Professional marketing content, high quality, brand appropriate." ∧
    optimizeSpecContract "" ⟨"", .realistic, .instagram, .image⟩ =
      Except.error "InvalidArgument" := ⟨rfl, rfl⟩

/-- C5 amended: `optimizePrompt` performs no input validation: an empty raw
prompt is accepted and yields the concatenated descriptor string (never the
empty string, and never an error — no InvalidArgument path exists in the
code; style and platform values outside the enumerated sets are excluded
statically by the typed interface, not by a runtime check). -/
theorem optimizePrompt_accepts_empty_prompt (options : GenerationOptions) :
    optimizePrompt "" options =
      ". Style: " ++ stylePrompts options.style ++ ". Platform: " ++
        platformPrompts options.platform ++
        ". Professional marketing content, high quality, brand appropriate." ∧
    optimizePrompt "" options ≠ "" := by
  constructor
  · rfl
  · intro h
    rw [optimizePrompt] at h
    exact append_ne_empty_left _ _ (append_ne_empty_left _ _ (append_ne_empty_left _ _
      (append_ne_empty_left _ _ (by decide)))) h

/-- C3 counterexample: two consecutive usage updates computed from the same
(unrefreshed) subscription snapshot `{current_usage := 5, usage_limit := 10}`
starting from a stored value of 5 leave the stored value at 6 — larger by 1,
not by 2 — because the update writes `snapshot.current_usage + 1` rather than
incrementing the stored value. -/
theorem recordUsage_twice_counterexample :
    recordUsage (some ⟨5, 10⟩) (recordUsage (some ⟨5, 10⟩) 5) = 6 ∧
    recordUsage (some ⟨5, 10⟩) (recordUsage (some ⟨5, 10⟩) 5) ≠ 5 + 2 := by decide

/-- C3 amended: the usage update writes the client snapshot's
`current_usage + 1`, ignoring the stored value — a set to a snapshot-derived
value, not a plain increment of the stored counter.  Each call increases the
stored value by exactly 1 only when the snapshot agrees with the store;
called twice with the same unrefreshed snapshot the stored value ends at
`snapshot.current_usage + 1` both times (larger by 1 overall, not 2). -/
theorem recordUsage_writes_snapshot_plus_one (q : Subscription) (stored stored2 : Nat) :
    recordUsage (some q) stored = q.current_usage + 1 ∧
    recordUsage (some q) (recordUsage (some q) stored2) = q.current_usage + 1 := by
  have h : recordUsage (some q) stored = q.current_usage + 1 := by
    by_cases h0 : q.current_usage = 0 <;> simp [recordUsage, jsOrNat, h0]
  have h2 : recordUsage (some q) (recordUsage (some q) stored2) = q.current_usage + 1 := by
    by_cases h0 : q.current_usage = 0 <;> simp [recordUsage, jsOrNat, h0]
  exact ⟨h, h2⟩

/-- C4 counterexample: an image dispatch whose provider response carries an
empty artifact list yields success=false with errorMessage
"No image URL returned from OpenAI" — not the string "no output produced"
the claim states. -/
theorem generateImage_empty_data_counterexample :
    (generateImage ⟨"p", .realistic, .instagram, .image⟩ (fun _ => Except.ok ⟨[]⟩) 0).success
      = false ∧
    (generateImage ⟨"p", .realistic, .instagram, .image⟩ (fun _ => Except.ok ⟨[]⟩) 0).error
      = some "No image URL returned from OpenAI" ∧
    (generateImage ⟨"p", .realistic, .instagram, .image⟩ (fun _ => Except.ok ⟨[]⟩) 0).error
      ≠ some "no output produced" := by decide

/-- C4 amended: for every image dispatch whose provider response contains no
truthy output URL (for example an empty artifact list), the returned
`GenerationResult` has success=false and errorMessage equal to
"No image URL returned from OpenAI". -/
theorem generateImage_no_url_is_failure (options : GenerationOptions)
    (provider : String → Except JsError ImagesResponse) (now : Nat)
    (resp : ImagesResponse)
    (hresp : provider (optimizePrompt options.prompt options) = Except.ok resp)
    (hurl : jsTruthy ((resp.data.head?).bind ImageDatum.url) = false) :
    generateImage options provider now =
      { success := false, error := some "No image URL returned from OpenAI" } := by
  simp [generateImage, hresp, hurl]

/-- Witness for C4's amended theorem at the empty artifact list. -/
theorem generateImage_no_url_is_failure_witness :
    generateImage ⟨"p", .realistic, .instagram, .image⟩ (fun _ => Except.ok ⟨[]⟩) 0 =
      { success := false, error := some "No image URL returned from OpenAI" } :=
  generateImage_no_url_is_failure ⟨"p", .realistic, .instagram, .image⟩
    (fun _ => Except.ok ⟨[]⟩) 0 ⟨[]⟩ rfl rfl

/-- C1: with a quota state (subscription) present, the generation dispatch is
made iff `current_usage < usage_limit` (so it is refused exactly when
`current_usage >= usage_limit`, and authorized at the boundary
`usage_limit - 1`); when refused, the flow's only effect is the quota alert,
so no generation call is made. -/
theorem onSubmit_quota_boundary (u : User) (q : Subscription) (data : GenerationForm)
    (optP : String) (provider : String → Except JsError ImagesResponse)
    (now : Nat) (nowIso : String) :
    (Effect.generateCall data.type ∈ onSubmit (some u) (some q) data optP provider now nowIso
      ↔ q.current_usage < q.usage_limit) ∧
    (q.usage_limit ≤ q.current_usage →
      onSubmit (some u) (some q) data optP provider now nowIso = [Effect.alert quotaMsg]) := by
  by_cases h : q.usage_limit ≤ q.current_usage
  · constructor
    · simp only [onSubmit, quotaExceeded]
      rw [if_pos (by simpa using h)]
      simp
      omega
    · intro _
      simp only [onSubmit, quotaExceeded]
      rw [if_pos (by simpa using h)]
  · constructor
    · simp only [onSubmit, quotaExceeded]
      rw [if_neg (by simpa using h)]
      constructor
      · intro _; omega
      · intro _
        split <;> simp
    · intro hc; exact absurd hc h

/-- Witness for C1 at the boundary: usage 9 of 10 is authorized (the iff's
right side holds), and usage 10 of 10 is refused with only the quota alert. -/
theorem onSubmit_quota_boundary_witness :
    (Effect.generateCall ContentType.image ∈
        onSubmit (some ⟨"u"⟩) (some ⟨9, 10⟩) ⟨"p", .image, .instagram, .realistic⟩ ""
          (fun _ => Except.ok ⟨[]⟩) 0 "t" ↔ (9 : Nat) < 10) ∧
    onSubmit (some ⟨"u"⟩) (some ⟨10, 10⟩) ⟨"p", .image, .instagram, .realistic⟩ ""
        (fun _ => Except.ok ⟨[]⟩) 0 "t" = [Effect.alert quotaMsg] :=
  ⟨(onSubmit_quota_boundary ⟨"u"⟩ ⟨9, 10⟩ ⟨"p", .image, .instagram, .realistic⟩ ""
      (fun _ => Except.ok ⟨[]⟩) 0 "t").1,
   (onSubmit_quota_boundary ⟨"u"⟩ ⟨10, 10⟩ ⟨"p", .image, .instagram, .realistic⟩ ""
      (fun _ => Except.ok ⟨[]⟩) 0 "t").2 (by decide)⟩

/-- C9: with no subscription record, the quota guard never trips — the
dispatch call is always made — and a quota refusal (a trace that is exactly
the quota alert) can only happen when a subscription object is present and
over its limit. -/
theorem onSubmit_guard_requires_subscription (u : User) (data : GenerationForm)
    (optP : String) (provider : String → Except JsError ImagesResponse)
    (now : Nat) (nowIso : String) :
    Effect.generateCall data.type ∈ onSubmit (some u) none data optP provider now nowIso ∧
    (∀ sub : Option Subscription,
      onSubmit (some u) sub data optP provider now nowIso = [Effect.alert quotaMsg] →
      ∃ q, sub = some q ∧ q.usage_limit ≤ q.current_usage) := by
  constructor
  · simp only [onSubmit, quotaExceeded]
    rw [if_neg (by simp)]
    split <;> simp
  · intro sub h
    match sub with
    | some q =>
      by_cases hq : q.usage_limit ≤ q.current_usage
      · exact ⟨q, rfl, hq⟩
      · exfalso
        revert h
        simp only [onSubmit, quotaExceeded]
        rw [if_neg (by simpa using hq)]
        split <;> simp
    | none =>
      exfalso
      revert h
      simp only [onSubmit, quotaExceeded]
      rw [if_neg (by simp)]
      split <;> simp

/-- Witness for C9: with no subscription the dispatch call is in the trace,
and the refusal trace at usage 10 of 10 exposes its over-limit subscription. -/
theorem onSubmit_guard_requires_subscription_witness :
    Effect.generateCall ContentType.image ∈
      onSubmit (some ⟨"u"⟩) none ⟨"p", .image, .instagram, .realistic⟩ ""
        (fun _ => Except.ok ⟨[]⟩) 0 "t" ∧
    ∃ q : Subscription, some (⟨10, 10⟩ : Subscription) = some q ∧
      q.usage_limit ≤ q.current_usage :=
  ⟨(onSubmit_guard_requires_subscription ⟨"u"⟩ ⟨"p", .image, .instagram, .realistic⟩ ""
      (fun _ => Except.ok ⟨[]⟩) 0 "t").1,
   (onSubmit_guard_requires_subscription ⟨"u"⟩ ⟨"p", .image, .instagram, .realistic⟩ ""
      (fun _ => Except.ok ⟨[]⟩) 0 "t").2 (some ⟨10, 10⟩) rfl⟩

/-- C2 counterexample: in a concrete successful generation flow both
persistence effects occur, the content-record insert strictly precedes the
usage update, and the usage update never precedes the insert — refuting the
claimed order "recordUsage then record last". -/
theorem generation_flow_order_counterexample :
    (onSubmit (some ⟨"u1"⟩) (some ⟨0, 10⟩) ⟨"hello", .image, .instagram, .realistic⟩ ""
        (fun _ => Except.ok ⟨[⟨some "https://img", some "rp"⟩]⟩) 0 "t").any
      Effect.isInsert = true ∧
    (onSubmit (some ⟨"u1"⟩) (some ⟨0, 10⟩) ⟨"hello", .image, .instagram, .realistic⟩ ""
        (fun _ => Except.ok ⟨[⟨some "https://img", some "rp"⟩]⟩) 0 "t").any
      Effect.isUpdateUsage = true ∧
    precedesB Effect.isInsert Effect.isUpdateUsage
      (onSubmit (some ⟨"u1"⟩) (some ⟨0, 10⟩) ⟨"hello", .image, .instagram, .realistic⟩ ""
        (fun _ => Except.ok ⟨[⟨some "https://img", some "rp"⟩]⟩) 0 "t") = true ∧
    precedesB Effect.isUpdateUsage Effect.isInsert
      (onSubmit (some ⟨"u1"⟩) (some ⟨0, 10⟩) ⟨"hello", .image, .instagram, .realistic⟩ ""
        (fun _ => Except.ok ⟨[⟨some "https://img", some "rp"⟩]⟩) 0 "t") = false := by decide

/-- C2 amended: within a successful generation flow the effects occur in the
order: quota authorization first, then the generation dispatch, then the
content-record write (record), and the usage increment (recordUsage) last. -/
theorem generation_flow_persist_order (u : User) (sub : Option Subscription)
    (data : GenerationForm) (optP : String)
    (provider : String → Except JsError ImagesResponse) (now : Nat) (nowIso : String)
    (hq : quotaExceeded sub = false)
    (hs : ((dispatchResult data optP provider now).success &&
      jsTruthy (dispatchResult data optP provider now).url) = true) :
    onSubmit (some u) sub data optP provider now nowIso =
      [Effect.generateCall data.type,
       Effect.insertContentItem u.id ("Generated " ++ data.type.str) data.prompt
         (jsOrStr optP data.prompt) data.type data.platform data.style
         ((dispatchResult data optP provider now).url.getD "") nowIso,
       Effect.updateUsage u.id (jsOrNat (sub.map Subscription.current_usage) 0 + 1)] := by
  simp only [onSubmit]
  rw [if_neg (by simp [hq])]
  rw [if_pos hs]

/-- Witness for C2's amended order at a concrete successful image flow. -/
theorem generation_flow_persist_order_witness :
    quotaExceeded (some ⟨0, 10⟩) = false ∧
    ((dispatchResult ⟨"hello", .image, .instagram, .realistic⟩ ""
        (fun _ => Except.ok ⟨[⟨some "https://img", some "rp"⟩]⟩) 0).success &&
      jsTruthy (dispatchResult ⟨"hello", .image, .instagram, .realistic⟩ ""
        (fun _ => Except.ok ⟨[⟨some "https://img", some "rp"⟩]⟩) 0).url) = true ∧
    onSubmit (some ⟨"u1"⟩) (some ⟨0, 10⟩) ⟨"hello", .image, .instagram, .realistic⟩ ""
        (fun _ => Except.ok ⟨[⟨some "https://img", some "rp"⟩]⟩) 0 "t" =
      [Effect.generateCall ContentType.image,
       Effect.insertContentItem "u1" "Generated image" "hello" "hello"
         ContentType.image Platform.instagram Style.realistic "https://img" "t",
       Effect.updateUsage "u1" 1] :=
  ⟨rfl, rfl,
   generation_flow_persist_order ⟨"u1"⟩ (some ⟨0, 10⟩)
     ⟨"hello", .image, .instagram, .realistic⟩ ""
     (fun _ => Except.ok ⟨[⟨some "https://img", some "rp"⟩]⟩) 0 "t" rfl rfl⟩

/-- C6: whenever the dispatch returns a result with success=false, the flow
performs neither the content-record insert nor the usage update — for any
user, subscription state and inputs. -/
theorem failed_dispatch_no_persistence (user : Option User) (sub : Option Subscription)
    (data : GenerationForm) (optP : String)
    (provider : String → Except JsError ImagesResponse) (now : Nat) (nowIso : String)
    (h : (dispatchResult data optP provider now).success = false) :
    ((onSubmit user sub data optP provider now nowIso).all
      (fun e => !e.isInsert && !e.isUpdateUsage)) = true := by
  match user with
  | none => rfl
  | some u =>
    cases hq : quotaExceeded sub
    · have hs : ((dispatchResult data optP provider now).success &&
          jsTruthy (dispatchResult data optP provider now).url) = false := by
        simp [h]
      simp only [onSubmit]
      rw [if_neg (by simp [hq])]
      rw [if_neg (by simp [hs])]
      simp [Effect.isInsert, Effect.isUpdateUsage]
    · simp only [onSubmit]
      rw [if_pos (by simp [hq])]
      simp [Effect.isInsert, Effect.isUpdateUsage]

/-- Witness for C6 at a concrete provider error. -/
theorem failed_dispatch_no_persistence_witness :
    (dispatchResult ⟨"p", .image, .instagram, .realistic⟩ ""
      (fun _ => Except.error ⟨some "boom"⟩) 0).success = false ∧
    ((onSubmit (some ⟨"u"⟩) (some ⟨0, 10⟩) ⟨"p", .image, .instagram, .realistic⟩ ""
        (fun _ => Except.error ⟨some "boom"⟩) 0 "t").all
      (fun e => !e.isInsert && !e.isUpdateUsage)) = true :=
  ⟨rfl, failed_dispatch_no_persistence (some ⟨"u"⟩) (some ⟨0, 10⟩)
    ⟨"p", .image, .instagram, .realistic⟩ ""
    (fun _ => Except.error ⟨some "boom"⟩) 0 "t" rfl⟩

/-- C7: a provider error raised inside the image dispatch is caught and
returned as data — success=false with the provider's message, or the generic
fallback when the message is absent or empty — and the video path's stub
raises nothing and returns a plain result, so no exception crosses the
dispatcher boundary on either path. -/
theorem dispatcher_returns_errors_as_data (options : GenerationOptions)
    (provider : String → Except JsError ImagesResponse) (now : Nat) (e : JsError)
    (h : provider (optimizePrompt options.prompt options) = Except.error e) :
    generateImage options provider now =
      { success := false, error := some (jsOrOptStr e.message "Failed to generate image") } ∧
    (generateVideo options now).success = true ∧ (generateVideo options now).error = none := by
  refine ⟨?_, rfl, rfl⟩
  simp [generateImage, h]

/-- Witness for C7 at a concrete provider error with a message. -/
theorem dispatcher_returns_errors_as_data_witness :
    generateImage ⟨"p", .realistic, .instagram, .image⟩
        (fun _ => Except.error ⟨some "boom"⟩) 0 =
      { success := false, error := some "boom" } ∧
    (generateVideo ⟨"p", .realistic, .instagram, .image⟩ 0).success = true ∧
    (generateVideo ⟨"p", .realistic, .instagram, .image⟩ 0).error = none :=
  dispatcher_returns_errors_as_data ⟨"p", .realistic, .instagram, .image⟩
    (fun _ => Except.error ⟨some "boom"⟩) 0 ⟨some "boom"⟩ rfl

/-- C10: the video dispatch always returns success=true with the synthesized
placeholder URL `https://example.com/video-placeholder-<timestamp>.mp4` (its
failure branch is unreachable), so every authorized video submission creates
a content record and consumes quota. -/
theorem generateVideo_always_succeeds (options : GenerationOptions) (now : Nat) :
    generateVideo options now =
      { success := true
        url := some ("https://example.com/video-placeholder-" ++ toString now ++ ".mp4")
        error := none
        id := some ("video-" ++ toString now) } ∧
    (∀ (u : User) (sub : Option Subscription) (data : GenerationForm) (optP : String)
      (provider : String → Except JsError ImagesResponse) (nowIso : String),
      quotaExceeded sub = false → data.type = ContentType.video →
      (onSubmit (some u) sub data optP provider now nowIso).any Effect.isInsert = true ∧
      (onSubmit (some u) sub data optP provider now nowIso).any Effect.isUpdateUsage = true) := by
  constructor
  · rfl
  · intro u sub data optP provider nowIso hq hv
    have hne : ("https://example.com/video-placeholder-" ++ toString now ++ ".mp4") ≠ "" :=
      append_ne_empty_left _ _ (append_ne_empty_left _ _ (by decide))
    have hs : ((dispatchResult data optP provider now).success &&
        jsTruthy (dispatchResult data optP provider now).url) = true := by
      simp [dispatchResult, hv, generateVideo, jsTruthy, hne]
    simp only [onSubmit]
    rw [if_neg (by simp [hq])]
    rw [if_pos hs]
    simp [Effect.isInsert, Effect.isUpdateUsage]

/-- Witness for C10 at timestamp 7 and a video submission with no
subscription record. -/
theorem generateVideo_always_succeeds_witness :
    generateVideo ⟨"p", .realistic, .instagram, .video⟩ 7 =
      { success := true, url := some "https://example.com/video-placeholder-7.mp4",
        error := none, id := some "video-7" } ∧
    ((onSubmit (some ⟨"u"⟩) none ⟨"p", .video, .instagram, .realistic⟩ ""
        (fun _ => Except.ok ⟨[]⟩) 7 "t").any Effect.isInsert = true ∧
      (onSubmit (some ⟨"u"⟩) none ⟨"p", .video, .instagram, .realistic⟩ ""
        (fun _ => Except.ok ⟨[]⟩) 7 "t").any Effect.isUpdateUsage = true) :=
  ⟨(generateVideo_always_succeeds ⟨"p", .realistic, .instagram, .video⟩ 7).1,
   (generateVideo_always_succeeds ⟨"p", .realistic, .instagram, .video⟩ 7).2 ⟨"u"⟩ none
     ⟨"p", .video, .instagram, .realistic⟩ "" (fun _ => Except.ok ⟨[]⟩) "t" rfl rfl⟩

end FastAd
